import Mathlib

/-!
# Redis plugin (`plugins/redis.go`): create and terminate actions

A shallow embedding of `src/plugins/redis.go` and the properties of its
validation stage (`CheckParam`), its batch executor (`Do`) and the plugin
facade (`GetActionByName`).

Conventions of the embedding

* A Go `error` is a value of `GoError`; a possibly-nil `error` is an
  `Option GoError` (`none` is `nil`).
* Go `int` fields are `Int`; no arithmetic is performed on them.
* A Go `map[string]T` is an association list with `mapAssign` (`m[k] = v`),
  `mapLookup` (`v, found := m[k]`) and `mapIndex` (`m[k]`, zero value `""` when
  the key is absent).
* A value of type `interface{}` is a `Value`: its dynamic type decides the type
  assertion `input.(RedisInputs)`.
* The calls into the vendor SDK (`redis.NewClient`, `client.CreateInstances`,
  `client.ClearInstance`) and the helper `GetMapFromProviderParams` are not part of
  `redis.go`; they are the fields of `Collaborators`, taken as a parameter.
  A remote call may depend on the calls made before it, so it receives the log of
  earlier calls; `Do` returns the log it has extended, which records every call
  it made, in order.
* Two selectors of `createRedis` name no declared field: line 122 reads
  `(*redisInput).SubnetId` where `RedisInput` declares `SubnetID`, and line 135 assigns
  `output.DealId` where `RedisOutput` declares `DealID`. The embedding keeps both as
  written, apart from the declared fields: the read `RedisInput.SubnetId` yields the zero
  value, since nothing gives it one, and the write `RedisOutput.setDealId` reaches no
  declared field, so `DealID` keeps its zero value.
* Logging through `logrus` has no effect on any returned value and is left out.
* `ReadParam` of either action only forwards to `UnmarshalJson`, which is not part of
  `redis.go`; it is not embedded.
-/

namespace Plugins

/-! ## Go runtime values -/

/-- A non-nil Go `error`, identified by the text of its `Error()` method. -/
structure GoError where
  msg : String
deriving DecidableEq, Repr

/-- Go `errors.New`. -/
def errorsNew (text : String) : GoError := ⟨text⟩

/-- Go map assignment `m[k] = v` on an association list. -/
def mapAssign {β : Type} (m : List (String × β)) (k : String) (v : β) : List (String × β) :=
  match m with
  | [] => [(k, v)]
  | (k0, v0) :: rest => if k0 = k then (k, v) :: rest else (k0, v0) :: mapAssign rest k v

/-- Go two-result map read `v, found := m[k]`: `none` stands for `found = false`. -/
def mapLookup {β : Type} (m : List (String × β)) (k : String) : Option β :=
  match m with
  | [] => none
  | (k0, v0) :: rest => if k0 = k then some v0 else mapLookup rest k

/-- Go one-result map read `m[k]` on a `map[string]string`: the empty string when absent. -/
def mapIndex (m : List (String × String)) (k : String) : String :=
  (mapLookup m k).getD ""

/-! ## Data model (`redis.go` lines 29-57) -/

structure RedisInput where
  Guid : String
  ProviderParams : String
  ZoneID : Int
  TypeID : Int
  MemSize : Int
  GoodsNum : Int
  Period : Int
  Password : String
  BillingMode : Int
  VpcID : String
  SubnetID : String
  InstanceID : String
deriving DecidableEq, Repr

structure RedisInputs where
  Inputs : List RedisInput
deriving DecidableEq, Repr

structure RedisOutput where
  RequestId : String
  Guid : String
  DealID : String
  TaskID : Int
deriving DecidableEq, Repr

structure RedisOutputs where
  Outputs : List RedisOutput
deriving DecidableEq, Repr

/-- A value of Go type `interface{}` as the actions receive it, by dynamic type. -/
inductive Value where
  /-- The nil interface value. -/
  | nil
  /-- Dynamic type `RedisInputs`: what `ReadParam` returns. -/
  | redisInputs (v : RedisInputs)
  /-- Dynamic type `*RedisInputs`; `none` is the nil pointer. -/
  | ptrRedisInputs (v : Option RedisInputs)
  /-- Dynamic type `*RedisOutputs`, the type of what `Do` returns; `none` is the nil
  pointer. -/
  | ptrRedisOutputs (v : Option RedisOutputs)
  /-- Any other dynamic type, given by its `%T` rendering. -/
  | other (goType : String)
deriving DecidableEq, Repr

/-- The `%T` rendering of a value's dynamic type. -/
def Value.typeName : Value → String
  | .nil => "<nil>"
  | .redisInputs _ => "plugins.RedisInputs"
  | .ptrRedisInputs _ => "*plugins.RedisInputs"
  | .ptrRedisOutputs _ => "*plugins.RedisOutputs"
  | .other goType => goType

/-- The type assertion `rediss, ok := input.(RedisInputs)`: on failure `rediss` is the
zero value, whose `Inputs` slice is nil. -/
def Value.assertRedisInputs : Value → RedisInputs × Bool
  | .redisInputs v => (v, true)
  | _ => (⟨[]⟩, false)

/-! ## Collaborators outside `redis.go` -/

/-- Modelled from the spec: the SDK credential built by `common.NewCredential`. -/
structure Credential where
  SecretId : String
  SecretKey : String
deriving DecidableEq, Repr

/-- Modelled from the spec: the SDK client profile; only `HttpProfile.Endpoint` is set. -/
structure ClientProfile where
  Endpoint : String
deriving DecidableEq, Repr

/-- Modelled from the spec: the SDK `redis.Client`, holding what it was built from. -/
structure Client where
  credential : Credential
  region : String
  clientProfile : ClientProfile
deriving DecidableEq, Repr

/-- Modelled from the spec: the SDK `CreateInstancesRequest`; every field is a pointer,
nil (`none`) until assigned. -/
structure CreateInstancesRequest where
  ZoneId : Option Int
  TypeId : Option Int
  MemSize : Option Int
  GoodsNum : Option Int
  Period : Option Int
  Password : Option String
  BillingMode : Option Int
  VpcId : Option String
  SubnetId : Option String
deriving DecidableEq, Repr

/-- Modelled from the spec: the SDK `ClearInstanceRequest`. -/
structure ClearInstanceRequest where
  InstanceId : Option String
  Password : Option String
deriving DecidableEq, Repr

/-- Modelled from the spec: what a successful `CreateInstances` returns (§6:
`(requestId, dealId)`). -/
structure CreateInstancesResponse where
  RequestId : String
  DealId : String
deriving DecidableEq, Repr

/-- Modelled from the spec: what a successful `ClearInstance` returns (§6:
`(requestId, taskId)`). -/
structure ClearInstanceResponse where
  RequestId : String
  TaskId : Int
deriving DecidableEq, Repr

/-- One `client.CreateInstances(request)` call: the receiver (possibly nil) and the request. -/
abbrev CreateCall := Option Client × CreateInstancesRequest

/-- One `client.ClearInstance(request)` call: the receiver (possibly nil) and the request. -/
abbrev ClearCall := Option Client × ClearInstanceRequest

/-- The functions `redis.go` calls but does not define. The two remote calls receive
the log of the calls made before them. -/
structure Collaborators where
  /-- The repository helper `GetMapFromProviderParams`: `(map, err)`. -/
  GetMapFromProviderParams : String → List (String × String) × Option GoError
  /-- The SDK constructor `redis.NewClient`: `(client, err)`. -/
  NewClient : Credential → String → ClientProfile → Option Client × Option GoError
  /-- The SDK method `client.CreateInstances(request)`. -/
  CreateInstances : List CreateCall → Option Client → CreateInstancesRequest →
    Except GoError CreateInstancesResponse
  /-- The SDK method `client.ClearInstance(request)`. -/
  ClearInstance : List ClearCall → Option Client → ClearInstanceRequest →
    Except GoError ClearInstanceResponse

/-! ## Registry and facade (`redis.go` lines 13-18, 59-70) -/

/-- The two implementations of the `Action` interface. -/
inductive Action where
  | RedisCreateAction
  | RedisTerminateAction
deriving DecidableEq, Repr

/-- The package variable `RedisActions` after `init()` has run. -/
def RedisActions : List (String × Action) :=
  mapAssign (mapAssign [] "create" Action.RedisCreateAction) "terminate"
    Action.RedisTerminateAction

/-- The error of `fmt.Errorf("Redis plugin,action = %s not found", actionName)`. -/
def actionNotFound (actionName : String) : GoError :=
  ⟨"Redis plugin,action = " ++ actionName ++ " not found"⟩

/-- `RedisPlugin.GetActionByName`: `(action, err)`. -/
def GetActionByName (actionName : String) : Option Action × Option GoError :=
  match mapLookup RedisActions actionName with
  | none => (none, some (actionNotFound actionName))
  | some action => (some action, none)

/-- `CreateRedisClient`: `(client, err)`. -/
def CreateRedisClient (env : Collaborators) (region secretId secretKey : String) :
    Option Client × Option GoError :=
  let credential : Credential := ⟨secretId, secretKey⟩
  let clientProfile : ClientProfile := ⟨"redis.tencentcloudapi.com"⟩
  env.NewClient credential region clientProfile

/-! ## Create action (`redis.go` lines 72-153) -/

/-- The loop of `RedisCreateAction.CheckParam` over `rediss.Inputs`. -/
def createCheckLoop : List RedisInput → Option GoError
  | [] => none
  | redis :: rest =>
    if redis.GoodsNum = 0 then
      some (errorsNew "RedisCreateAction input goodsnum is invalid")
    else if redis.Password = "" then
      some (errorsNew "RedisCreateAction input password is empty")
    else if redis.BillingMode ≠ 0 ∧ redis.BillingMode ≠ 1 then
      some (errorsNew "RedisCreateAction input password is invalid")
    else createCheckLoop rest

/-- `RedisCreateAction.CheckParam`: the returned `error`. -/
def RedisCreateAction.CheckParam (input : Value) : Option GoError :=
  match input.assertRedisInputs with
  | (_, false) =>
    some ⟨"RedisCreateAction:input type=" ++ input.typeName ++ " not right"⟩
  | (rediss, true) => createCheckLoop rediss.Inputs

/-- The read `(*redisInput).SubnetId` of line 122. `RedisInput` declares `SubnetID` and
no `SubnetId`, so no decoder and no assignment gives this selector a value: it yields
the zero value of a string. -/
def RedisInput.SubnetId (_ : RedisInput) : String := ""

/-- The assignment `output.DealId = v` of line 135. `RedisOutput` declares `DealID` and
no `DealId`, so the assignment reaches no declared field and leaves them all as they
were. -/
def RedisOutput.setDealId (output : RedisOutput) (_ : String) : RedisOutput := output

/-- The request `createRedis` builds from one input (lines 109-124). -/
def createRequest (redisInput : RedisInput) : CreateInstancesRequest :=
  let request : CreateInstancesRequest :=
    ⟨none, none, none, none, none, none, none, none, none⟩
  let request := { request with ZoneId := some redisInput.ZoneID }
  let request := { request with TypeId := some redisInput.TypeID }
  let request := { request with MemSize := some redisInput.MemSize }
  let request := { request with GoodsNum := some redisInput.GoodsNum }
  let request := { request with Period := some redisInput.Period }
  let request := { request with Password := some redisInput.Password }
  let request := { request with BillingMode := some redisInput.BillingMode }
  let request :=
    if redisInput.VpcID ≠ "" then { request with VpcId := some redisInput.VpcID } else request
  let request :=
    if redisInput.SubnetId ≠ "" then { request with SubnetId := some redisInput.SubnetID }
    else request
  request

/-- The client `createRedis` and `terminateRedis` obtain for one input: the error of
`GetMapFromProviderParams` is overwritten unread and the error of `CreateRedisClient`
is assigned to the blank identifier. -/
def resolveClient (env : Collaborators) (redisInput : RedisInput) : Option Client :=
  let (paramsMap, _) := env.GetMapFromProviderParams redisInput.ProviderParams
  let (client, _) := CreateRedisClient env (mapIndex paramsMap "Region")
    (mapIndex paramsMap "SecretID") (mapIndex paramsMap "SecretKey")
  client

/-- The call `createRedis` makes for one input. -/
def createCall (env : Collaborators) (redisInput : RedisInput) : CreateCall :=
  (resolveClient env redisInput, createRequest redisInput)

/-- `RedisCreateAction.createRedis`, given the log of earlier calls: the result
(`.error err` is `(nil, err)`, `.ok output` is `(&output, nil)`) and the extended log.
The deal identifier of the response goes through `RedisOutput.setDealId`, as line 135
writes it. -/
def RedisCreateAction.createRedis (env : Collaborators) (log : List CreateCall)
    (redisInput : RedisInput) : Except GoError RedisOutput × List CreateCall :=
  let client := resolveClient env redisInput
  let request := createRequest redisInput
  match env.CreateInstances log client request with
  | .error err => (.error err, log ++ [(client, request)])
  | .ok response =>
    let output : RedisOutput := ⟨"", "", "", 0⟩
    let output := { output with RequestId := response.RequestId }
    let output := { output with Guid := redisInput.Guid }
    let output := output.setDealId response.DealId
    (.ok output, log ++ [(client, request)])

/-- What `Do` returns: `(output, err)` and the log of the remote calls made. -/
structure DoResult (call : Type) where
  output : Option RedisOutputs
  err : Option GoError
  calls : List call

/-- The loop of `RedisCreateAction.Do` over `rediss.Inputs`. -/
def createDoLoop (env : Collaborators) :
    List RedisInput → RedisOutputs → List CreateCall → DoResult CreateCall
  | [], outputs, log => ⟨some outputs, none, log⟩
  | redis :: rest, outputs, log =>
    match RedisCreateAction.createRedis env log redis with
    | (.error err, log1) => ⟨none, some err, log1⟩
    | (.ok redisOutput, log1) =>
      createDoLoop env rest ⟨outputs.Outputs ++ [redisOutput]⟩ log1

/-- `RedisCreateAction.Do`. -/
def RedisCreateAction.Do (env : Collaborators) (input : Value) : DoResult CreateCall :=
  let (rediss, _) := input.assertRedisInputs
  let outputs : RedisOutputs := ⟨[]⟩
  createDoLoop env rediss.Inputs outputs []

/-! ## Terminate action (`redis.go` lines 155-216) -/

/-- The loop of `RedisTerminateAction.CheckParam` over `rediss.Inputs`. -/
def terminateCheckLoop : List RedisInput → Option GoError
  | [] => none
  | redis :: rest =>
    if redis.InstanceID = "" then
      some (errorsNew "RedisTerminateAtion input InstanceID is empty")
    else if redis.Password = "" then
      some (errorsNew "RedisTerminateAtion input Password is empty")
    else terminateCheckLoop rest

/-- `RedisTerminateAction.CheckParam`: the returned `error`. -/
def RedisTerminateAction.CheckParam (input : Value) : Option GoError :=
  match input.assertRedisInputs with
  | (_, false) =>
    some ⟨"redisTerminateAtion:input type=" ++ input.typeName ++ " not right"⟩
  | (rediss, true) => terminateCheckLoop rediss.Inputs

/-- The request `terminateRedis` builds from one input. -/
def clearRequest (redisInput : RedisInput) : ClearInstanceRequest :=
  let request : ClearInstanceRequest := ⟨none, none⟩
  let request := { request with InstanceId := some redisInput.InstanceID }
  let request := { request with Password := some redisInput.Password }
  request

/-- The call `terminateRedis` makes for one input. -/
def clearCall (env : Collaborators) (redisInput : RedisInput) : ClearCall :=
  (resolveClient env redisInput, clearRequest redisInput)

/-- The error of
`fmt.Errorf("Failed to ClearInstance(InstanceId=%v), error=%s", redisInput.InstanceID, err)`. -/
def clearFailure (instanceID : String) (err : GoError) : GoError :=
  ⟨"Failed to ClearInstance(InstanceId=" ++ instanceID ++ "), error=" ++ err.msg⟩

/-- `RedisTerminateAction.terminateRedis`, given the log of earlier calls. -/
def RedisTerminateAction.terminateRedis (env : Collaborators) (log : List ClearCall)
    (redisInput : RedisInput) : Except GoError RedisOutput × List ClearCall :=
  let client := resolveClient env redisInput
  let request := clearRequest redisInput
  match env.ClearInstance log client request with
  | .error err => (.error (clearFailure redisInput.InstanceID err), log ++ [(client, request)])
  | .ok response =>
    let output : RedisOutput := ⟨"", "", "", 0⟩
    let output := { output with RequestId := response.RequestId }
    let output := { output with Guid := redisInput.Guid }
    let output := { output with TaskID := response.TaskId }
    (.ok output, log ++ [(client, request)])

/-- The loop of `RedisTerminateAction.Do` over `rediss.Inputs`. -/
def terminateDoLoop (env : Collaborators) :
    List RedisInput → RedisOutputs → List ClearCall → DoResult ClearCall
  | [], outputs, log => ⟨some outputs, none, log⟩
  | redis :: rest, outputs, log =>
    match RedisTerminateAction.terminateRedis env log redis with
    | (.error err, log1) => ⟨none, some err, log1⟩
    | (.ok output, log1) =>
      terminateDoLoop env rest ⟨outputs.Outputs ++ [output]⟩ log1

/-- `RedisTerminateAction.Do`. -/
def RedisTerminateAction.Do (env : Collaborators) (input : Value) : DoResult ClearCall :=
  let (rediss, _) := input.assertRedisInputs
  let outputs : RedisOutputs := ⟨[]⟩
  terminateDoLoop env rediss.Inputs outputs []


/-! ## Concrete collaborators and batches -/

/-- The provider-parameter bundle the stub collaborators accept. -/
def goodParams : String := "Region=ap-guangzhou;SecretID=id;SecretKey=key"

/-- The same bundle followed by a stray `;`: its three entries parse and the empty
fourth one does not. -/
def trailingSemicolonParams : String := "Region=ap-guangzhou;SecretID=id;SecretKey=key;"

/-- A stub of `GetMapFromProviderParams`: it parses `goodParams`; on
`trailingSemicolonParams` it returns the three entries read so far together with an
error; on every other bundle it returns an empty map with an error. -/
def stubGetMap (providerParams : String) : List (String × String) × Option GoError :=
  if providerParams = goodParams then
    ([("Region", "ap-guangzhou"), ("SecretID", "id"), ("SecretKey", "key")], none)
  else if providerParams = trailingSemicolonParams then
    ([("Region", "ap-guangzhou"), ("SecretID", "id"), ("SecretKey", "key")],
      some ⟨"GetMapFromProviderParams meet illegal format param="⟩)
  else
    ([], some ⟨"GetMapFromProviderParams meet illegal format param=" ++ providerParams⟩)

/-- A stub of `redis.NewClient` that always builds a client. -/
def stubNewClient (credential : Credential) (region : String) (clientProfile : ClientProfile) :
    Option Client × Option GoError :=
  (some ⟨credential, region, clientProfile⟩, none)

/-- Stub collaborators on which every remote call succeeds: `CreateInstances` returns
`"req-1"`/`"deal-1"` and `ClearInstance` returns `"req-2"`/`7`. -/
def stubEnv : Collaborators where
  GetMapFromProviderParams := stubGetMap
  NewClient := stubNewClient
  CreateInstances := fun _ _ _ => .ok ⟨"req-1", "deal-1"⟩
  ClearInstance := fun _ _ _ => .ok ⟨"req-2", 7⟩

/-- Stub collaborators on which the second remote call of a run fails. -/
def secondFailsEnv : Collaborators where
  GetMapFromProviderParams := stubGetMap
  NewClient := stubNewClient
  CreateInstances := fun log _ _ =>
    if log.length = 1 then .error ⟨"quota exceeded"⟩ else .ok ⟨"req-1", "deal-1"⟩
  ClearInstance := fun log _ _ =>
    if log.length = 1 then .error ⟨"instance is isolated"⟩ else .ok ⟨"req-2", 7⟩

/-- A well-formed create item with the given correlation identifier. -/
def createItem (guid : String) : RedisInput :=
  ⟨guid, goodParams, 100002, 2, 1024, 1, 1, "p", 0, "", "", ""⟩

/-- A well-formed terminate item with the given correlation and resource identifiers. -/
def terminateItem (guid instanceID : String) : RedisInput :=
  ⟨guid, goodParams, 0, 0, 0, 0, 0, "p", 0, "", "", instanceID⟩

/-- A create item whose count and password are valid and whose billing mode is 2. -/
def billingModeTwoItem : RedisInput :=
  ⟨"g1", goodParams, 100002, 2, 1024, 1, 1, "p", 2, "", "", ""⟩

/-- A create item whose count is negative and whose other fields are valid. -/
def negativeCountItem : RedisInput :=
  ⟨"g1", goodParams, 100002, 2, 1024, -1, 1, "p", 0, "", "", ""⟩

/-- An item, valid for both actions, whose provider-parameter bundle does not parse. -/
def badParamsItem : RedisInput :=
  ⟨"g1", trailingSemicolonParams, 100002, 2, 1024, 1, 1, "p", 0, "", "", "crs-1"⟩

/-- A create batch of three well-formed items. -/
def threeCreateItems : RedisInputs :=
  ⟨[createItem "g1", createItem "g2", createItem "g3"]⟩

/-- A terminate batch of three well-formed items. -/
def threeTerminateItems : RedisInputs :=
  ⟨[terminateItem "g1" "crs-1", terminateItem "g2" "crs-2", terminateItem "g3" "crs-3"]⟩

/-! ## Validation -/

/-- The create loop rejects exactly the lists holding an offending item. -/
theorem createCheckLoop_ne_none_iff (l : List RedisInput) :
    createCheckLoop l ≠ none ↔
      ∃ redis ∈ l, redis.GoodsNum = 0 ∨ redis.Password = "" ∨
        (redis.BillingMode ≠ 0 ∧ redis.BillingMode ≠ 1) := by
  induction l with
  | nil => simp [createCheckLoop]
  | cons redis rest ih =>
    unfold createCheckLoop
    by_cases h1 : redis.GoodsNum = 0
    · simp [h1]
    · by_cases h2 : redis.Password = ""
      · simp [h1, h2]
      · by_cases h3 : redis.BillingMode ≠ 0 ∧ redis.BillingMode ≠ 1
        · simp [h1, h2, h3]
        · rw [if_neg h1, if_neg h2, if_neg h3, ih]
          simp [h1, h2, h3]

/-- The terminate loop rejects exactly the lists holding an offending item. -/
theorem terminateCheckLoop_ne_none_iff (l : List RedisInput) :
    terminateCheckLoop l ≠ none ↔
      ∃ redis ∈ l, redis.InstanceID = "" ∨ redis.Password = "" := by
  induction l with
  | nil => simp [terminateCheckLoop]
  | cons redis rest ih =>
    unfold terminateCheckLoop
    by_cases h1 : redis.InstanceID = ""
    · simp [h1]
    · by_cases h2 : redis.Password = ""
      · simp [h1, h2]
      · rw [if_neg h1, if_neg h2, ih]
        simp [h1, h2]

/-- C1: on every `RedisInputs` batch, `RedisCreateAction.CheckParam` returns an error
if and only if some item has `GoodsNum = 0`, or `Password = ""`, or `BillingMode`
outside 0 and 1; on every other batch it returns nil, and the empty batch is one of
them. -/
theorem C1_create_CheckParam_rejects_iff (batch : RedisInputs) :
    (RedisCreateAction.CheckParam (Value.redisInputs batch) ≠ none ↔
      ∃ redis ∈ batch.Inputs, redis.GoodsNum = 0 ∨ redis.Password = "" ∨
        (redis.BillingMode ≠ 0 ∧ redis.BillingMode ≠ 1)) ∧
    (RedisCreateAction.CheckParam (Value.redisInputs batch) = none ↔
      ¬ ∃ redis ∈ batch.Inputs, redis.GoodsNum = 0 ∨ redis.Password = "" ∨
        (redis.BillingMode ≠ 0 ∧ redis.BillingMode ≠ 1)) ∧
    RedisCreateAction.CheckParam (Value.redisInputs ⟨[]⟩) = none := by
  have h := createCheckLoop_ne_none_iff batch.Inputs
  refine ⟨h, ?_, rfl⟩
  rw [← h]
  exact not_not.symm

/-- C2: on every `RedisInputs` batch, `RedisTerminateAction.CheckParam` returns an
error if and only if some item has `InstanceID = ""` or `Password = ""`; on every other
batch it returns nil, whatever the remaining fields hold. -/
theorem C2_terminate_CheckParam_rejects_iff (batch : RedisInputs) :
    (RedisTerminateAction.CheckParam (Value.redisInputs batch) ≠ none ↔
      ∃ redis ∈ batch.Inputs, redis.InstanceID = "" ∨ redis.Password = "") ∧
    (RedisTerminateAction.CheckParam (Value.redisInputs batch) = none ↔
      ∀ redis ∈ batch.Inputs, redis.InstanceID ≠ "" ∧ redis.Password ≠ "") := by
  have h := terminateCheckLoop_ne_none_iff batch.Inputs
  refine ⟨h, ?_⟩
  have h2 := not_congr h
  rw [not_not] at h2
  show terminateCheckLoop batch.Inputs = none ↔ _
  rw [h2]
  push_neg
  rfl

/-! ## Registry lookup -/

/-- The registry read of `GetActionByName`, by cases on the name. -/
theorem mapLookup_RedisActions (s : String) :
    mapLookup RedisActions s =
      if s = "create" then some Action.RedisCreateAction
      else if s = "terminate" then some Action.RedisTerminateAction
      else none := by
  by_cases h1 : s = "create"
  · subst h1
    decide
  · by_cases h2 : s = "terminate"
    · subst h2
      decide
    · have h1' : ¬ "create" = s := fun h => h1 h.symm
      have h2' : ¬ "terminate" = s := fun h => h2 h.symm
      simp [RedisActions, mapAssign, mapLookup, h1, h2, h1', h2']

/-- C5: `GetActionByName` succeeds exactly on `"create"` and `"terminate"`, which
resolve to the create action and to the terminate action, two distinct actions; every
other name gets a nil action and the not-found error, whose message contains the
name. -/
theorem C5_GetActionByName_resolves (s : String) :
    GetActionByName "create" = (some Action.RedisCreateAction, none) ∧
    GetActionByName "terminate" = (some Action.RedisTerminateAction, none) ∧
    Action.RedisCreateAction ≠ Action.RedisTerminateAction ∧
    ((∃ action, GetActionByName s = (some action, none)) ↔ (s = "create" ∨ s = "terminate")) ∧
    (¬ (s = "create" ∨ s = "terminate") →
      GetActionByName s = (none, some (actionNotFound s)) ∧
      (actionNotFound s).msg = "Redis plugin,action = " ++ s ++ " not found" ∧
      s.data <:+: (actionNotFound s).msg.data) := by
  refine ⟨by decide, by decide, by decide, ?_, ?_⟩
  · unfold GetActionByName
    rw [mapLookup_RedisActions]
    by_cases h1 : s = "create"
    · simp [h1]
    · by_cases h2 : s = "terminate"
      · simp [h2]
      · simp [h1, h2]
  · intro h
    have h1 : ¬ s = "create" := fun e => h (Or.inl e)
    have h2 : ¬ s = "terminate" := fun e => h (Or.inr e)
    refine ⟨?_, rfl, ?_⟩
    · unfold GetActionByName
      rw [mapLookup_RedisActions]
      simp [h1, h2]
    · refine ⟨"Redis plugin,action = ".data, " not found".data, ?_⟩
      simp [actionNotFound, String.data_append]

/-- C5 at the names `"resize"`, `""` and `"Create"`: none is registered. -/
theorem C5_GetActionByName_resize_not_found :
    GetActionByName "resize" =
      (none, some ⟨"Redis plugin,action = resize not found"⟩) ∧
    GetActionByName "" = (none, some ⟨"Redis plugin,action =  not found"⟩) ∧
    GetActionByName "Create" = (none, some ⟨"Redis plugin,action = Create not found"⟩) :=
  ⟨((C5_GetActionByName_resolves "resize").2.2.2.2 (by decide)).1,
   ((C5_GetActionByName_resolves "").2.2.2.2 (by decide)).1,
   ((C5_GetActionByName_resolves "Create").2.2.2.2 (by decide)).1⟩

/-! ## Which error `CheckParam` returns -/

/-- C6: the create `CheckParam` on the one-item batch whose item has a valid count, a
valid password and billing mode 2 returns the error whose text is
`RedisCreateAction input password is invalid`: it names the password, and the text
nowhere mentions the billing mode. -/
theorem C6_billing_mode_error_names_password :
    RedisCreateAction.CheckParam (Value.redisInputs ⟨[billingModeTwoItem]⟩) =
      some ⟨"RedisCreateAction input password is invalid"⟩ ∧
    billingModeTwoItem.GoodsNum ≠ 0 ∧ billingModeTwoItem.Password ≠ "" ∧
    billingModeTwoItem.BillingMode = 2 ∧
    ¬ ("illing".data <:+: "RedisCreateAction input password is invalid".data) := by
  refine ⟨by decide, by decide, by decide, by decide, by decide⟩

/-- C7, as stated, fails: the create `CheckParam` accepts the one-item batch whose item
has `GoodsNum = -1`, so an accepted batch need not have every count at least 1. -/
theorem C7_negative_count_accepted :
    RedisCreateAction.CheckParam (Value.redisInputs ⟨[negativeCountItem]⟩) = none ∧
    negativeCountItem ∈ [negativeCountItem] ∧
    ¬ (1 ≤ negativeCountItem.GoodsNum) := by
  refine ⟨by decide, by simp, by decide⟩

/-- C7, amended: every input the create `CheckParam` accepts is a `RedisInputs` batch
each of whose items has `GoodsNum` different from 0, a non-empty `Password` and a
`BillingMode` of 0 or 1. -/
theorem C7_accepted_batch_fields (input : Value)
    (h : RedisCreateAction.CheckParam input = none) :
    ∃ batch, input = Value.redisInputs batch ∧
      ∀ redis ∈ batch.Inputs, redis.GoodsNum ≠ 0 ∧ redis.Password ≠ "" ∧
        (redis.BillingMode = 0 ∨ redis.BillingMode = 1) := by
  cases input with
  | redisInputs batch =>
    refine ⟨batch, rfl, ?_⟩
    intro redis hmem
    have hloop : createCheckLoop batch.Inputs = none := h
    have hno := (not_congr (createCheckLoop_ne_none_iff batch.Inputs)).mp (not_not.mpr hloop)
    push_neg at hno
    obtain ⟨h1, h2, h3⟩ := hno redis hmem
    refine ⟨h1, h2, ?_⟩
    by_cases h0 : redis.BillingMode = 0
    · exact Or.inl h0
    · exact Or.inr (h3 h0)
  | nil => simp [RedisCreateAction.CheckParam, Value.assertRedisInputs] at h
  | ptrRedisInputs v => simp [RedisCreateAction.CheckParam, Value.assertRedisInputs] at h
  | ptrRedisOutputs v => simp [RedisCreateAction.CheckParam, Value.assertRedisInputs] at h
  | other goType => simp [RedisCreateAction.CheckParam, Value.assertRedisInputs] at h

/-- C7, amended, on the one-item batch holding `createItem "g1"`. -/
theorem C7_accepted_batch_fields_witness :
    ∃ batch, Value.redisInputs ⟨[createItem "g1"]⟩ = Value.redisInputs batch ∧
      ∀ redis ∈ batch.Inputs, redis.GoodsNum ≠ 0 ∧ redis.Password ≠ "" ∧
        (redis.BillingMode = 0 ∨ redis.BillingMode = 1) :=
  C7_accepted_batch_fields (Value.redisInputs ⟨[createItem "g1"]⟩) (by decide)

/-! ## Batch execution: create -/

/-- The output `createRedis` builds from an input and the response to its call. -/
theorem createRedis_ok (env : Collaborators) (log : List CreateCall) (redis : RedisInput)
    (r : CreateInstancesResponse)
    (h : env.CreateInstances log (resolveClient env redis) (createRequest redis) = .ok r) :
    RedisCreateAction.createRedis env log redis =
      (.ok ⟨r.RequestId, redis.Guid, "", 0⟩, log ++ [createCall env redis]) := by
  simp [RedisCreateAction.createRedis, RedisOutput.setDealId, h, createCall]

/-- A failing call makes `createRedis` return the call's error itself. -/
theorem createRedis_error (env : Collaborators) (log : List CreateCall) (redis : RedisInput)
    (e : GoError)
    (h : env.CreateInstances log (resolveClient env redis) (createRequest redis) = .error e) :
    RedisCreateAction.createRedis env log redis =
      (.error e, log ++ [createCall env redis]) := by
  simp [RedisCreateAction.createRedis, h, createCall]

/-- The create loop when the call for item `k` is the first to fail: no output, the
error of that call, and the calls for the items up to and including item `k`. -/
theorem createDoLoop_error (env : Collaborators) :
    ∀ (items : List RedisInput) (outputs : RedisOutputs) (log : List CreateCall)
      (k : Nat) (hk : k < items.length) (e : GoError),
      (∀ j (_ : j < k) (h : j < items.length), ∃ r,
        env.CreateInstances (log ++ (items.take j).map (createCall env))
          (resolveClient env items[j]) (createRequest items[j]) = .ok r) →
      env.CreateInstances (log ++ (items.take k).map (createCall env))
        (resolveClient env items[k]) (createRequest items[k]) = .error e →
      createDoLoop env items outputs log =
        ⟨none, some e, log ++ (items.take (k + 1)).map (createCall env)⟩ := by
  intro items
  induction items with
  | nil => intro _ _ k hk; exact absurd hk (Nat.not_lt_zero k)
  | cons x xs ih =>
    intro outputs log k hk e hpre hfail
    cases k with
    | zero =>
      simp only [List.take_zero, List.map_nil, List.append_nil, List.getElem_cons_zero] at hfail
      unfold createDoLoop
      rw [createRedis_error env log x e hfail]
      simp
    | succ k =>
      obtain ⟨r, h0⟩ := hpre 0 (Nat.succ_pos _) (Nat.succ_pos _)
      simp only [List.take_zero, List.map_nil, List.append_nil, List.getElem_cons_zero] at h0
      have hk' : k < xs.length := Nat.lt_of_succ_lt_succ hk
      have hpre' : ∀ j (_ : j < k) (h : j < xs.length), ∃ r,
          env.CreateInstances
            ((log ++ [createCall env x]) ++ (xs.take j).map (createCall env))
            (resolveClient env xs[j]) (createRequest xs[j]) = .ok r := by
        intro j hj hjl
        obtain ⟨r, hr⟩ := hpre (j + 1) (Nat.succ_lt_succ hj) (Nat.succ_lt_succ hjl)
        exact ⟨r, by simpa [List.append_assoc] using hr⟩
      have hfail' :
          env.CreateInstances
            ((log ++ [createCall env x]) ++ (xs.take k).map (createCall env))
            (resolveClient env xs[k]) (createRequest xs[k]) = .error e := by
        simpa [List.append_assoc] using hfail
      unfold createDoLoop
      rw [createRedis_ok env log x r h0]
      simp only
      rw [ih _ (log ++ [createCall env x]) k hk' e hpre' hfail']
      simp [List.append_assoc]

/-- C3: on the one-item batch with guid `"g1"`, with the stub whose call returns
`"req-1"`/`"deal-1"`, `RedisCreateAction.Do` returns no error and the single result
(`"req-1"`, `"g1"`, `""`): the `RequestId` and the `Guid` are those of the call and of
the input, and the `DealID` is empty, not the `"deal-1"` the service returned. -/
theorem C3_create_Do_deal_id_unset :
    stubEnv.CreateInstances [] (resolveClient stubEnv (createItem "g1"))
      (createRequest (createItem "g1")) = .ok ⟨"req-1", "deal-1"⟩ ∧
    (RedisCreateAction.Do stubEnv (Value.redisInputs ⟨[createItem "g1"]⟩)).err = none ∧
    (RedisCreateAction.Do stubEnv (Value.redisInputs ⟨[createItem "g1"]⟩)).output =
      some ⟨[⟨"req-1", "g1", "", 0⟩]⟩ ∧
    (RedisCreateAction.Do stubEnv (Value.redisInputs ⟨[createItem "g1"]⟩)).output ≠
      some ⟨[⟨"req-1", "g1", "deal-1", 0⟩]⟩ := by
  refine ⟨rfl, by decide, by decide, by decide⟩

/-- C4: when some provisioning call of the run fails, `RedisCreateAction.Do` returns a
nil output and the error of the first failing call, unchanged; the calls made are those
of the items up to and including the first failing one, in order, and no other. -/
theorem C4_create_Do_fail_fast (env : Collaborators) (batch : RedisInputs)
    (hfail : ∃ i, ∃ h : i < batch.Inputs.length, ∃ e,
      env.CreateInstances ((batch.Inputs.take i).map (createCall env))
        (resolveClient env batch.Inputs[i]) (createRequest batch.Inputs[i]) = .error e) :
    ∃ k, ∃ h : k < batch.Inputs.length, ∃ e,
      (∀ j (_ : j < k) (h : j < batch.Inputs.length), ∃ r,
        env.CreateInstances ((batch.Inputs.take j).map (createCall env))
          (resolveClient env batch.Inputs[j]) (createRequest batch.Inputs[j]) = .ok r) ∧
      env.CreateInstances ((batch.Inputs.take k).map (createCall env))
        (resolveClient env batch.Inputs[k]) (createRequest batch.Inputs[k]) = .error e ∧
      (RedisCreateAction.Do env (Value.redisInputs batch)).output = none ∧
      (RedisCreateAction.Do env (Value.redisInputs batch)).err = some e ∧
      (RedisCreateAction.Do env (Value.redisInputs batch)).calls =
        (batch.Inputs.take (k + 1)).map (createCall env) := by
  classical
  obtain ⟨hk, e, hke⟩ := Nat.find_spec hfail
  have hpre : ∀ j (_ : j < Nat.find hfail) (h : j < batch.Inputs.length), ∃ r,
      env.CreateInstances ((batch.Inputs.take j).map (createCall env))
        (resolveClient env batch.Inputs[j]) (createRequest batch.Inputs[j]) = .ok r := by
    intro j hj hjl
    have hmin := Nat.find_min hfail hj
    cases hc : env.CreateInstances ((batch.Inputs.take j).map (createCall env))
        (resolveClient env batch.Inputs[j]) (createRequest batch.Inputs[j]) with
    | ok r => exact ⟨r, rfl⟩
    | error e0 => exact absurd ⟨hjl, e0, hc⟩ hmin
  have hrun := createDoLoop_error env batch.Inputs ⟨[]⟩ [] (Nat.find hfail) hk e
    (by simpa using hpre) (by simpa using hke)
  have hdo : RedisCreateAction.Do env (Value.redisInputs batch) =
      ⟨none, some e, (batch.Inputs.take (Nat.find hfail + 1)).map (createCall env)⟩ := by
    simpa [RedisCreateAction.Do, Value.assertRedisInputs] using hrun
  exact ⟨Nat.find hfail, hk, e, hpre, hke, by rw [hdo], by rw [hdo], by rw [hdo]⟩

/-- C4 on a three-item batch whose second call fails: no output, the error of the
second call, and two calls made. -/
theorem C4_create_Do_second_of_three_fails :
    (RedisCreateAction.Do secondFailsEnv (Value.redisInputs threeCreateItems)).output = none ∧
    (RedisCreateAction.Do secondFailsEnv (Value.redisInputs threeCreateItems)).err =
      some ⟨"quota exceeded"⟩ ∧
    (RedisCreateAction.Do secondFailsEnv (Value.redisInputs threeCreateItems)).calls.length
      = 2 := by
  obtain ⟨_, _, _, _, _, hout, _, _⟩ :=
    C4_create_Do_fail_fast secondFailsEnv threeCreateItems
      ⟨1, by decide, ⟨"quota exceeded"⟩, rfl⟩
  exact ⟨hout, rfl, rfl⟩

/-! ## Batch execution: terminate -/

/-- The output `terminateRedis` builds from an input and the response to its call. -/
theorem terminateRedis_ok (env : Collaborators) (log : List ClearCall) (redis : RedisInput)
    (r : ClearInstanceResponse)
    (h : env.ClearInstance log (resolveClient env redis) (clearRequest redis) = .ok r) :
    RedisTerminateAction.terminateRedis env log redis =
      (.ok ⟨r.RequestId, redis.Guid, "", r.TaskId⟩, log ++ [clearCall env redis]) := by
  simp [RedisTerminateAction.terminateRedis, h, clearCall]

/-- A failing call makes `terminateRedis` return the formatted error. -/
theorem terminateRedis_error (env : Collaborators) (log : List ClearCall)
    (redis : RedisInput) (e : GoError)
    (h : env.ClearInstance log (resolveClient env redis) (clearRequest redis) = .error e) :
    RedisTerminateAction.terminateRedis env log redis =
      (.error (clearFailure redis.InstanceID e), log ++ [clearCall env redis]) := by
  simp [RedisTerminateAction.terminateRedis, h, clearCall]

/-- The terminate loop when the call for item `k` is the first to fail: no output, the
formatted error for that item, and the calls for the items up to and including it. -/
theorem terminateDoLoop_error (env : Collaborators) :
    ∀ (items : List RedisInput) (outputs : RedisOutputs) (log : List ClearCall)
      (k : Nat) (hk : k < items.length) (e : GoError),
      (∀ j (_ : j < k) (h : j < items.length), ∃ r,
        env.ClearInstance (log ++ (items.take j).map (clearCall env))
          (resolveClient env items[j]) (clearRequest items[j]) = .ok r) →
      env.ClearInstance (log ++ (items.take k).map (clearCall env))
        (resolveClient env items[k]) (clearRequest items[k]) = .error e →
      terminateDoLoop env items outputs log =
        ⟨none, some (clearFailure items[k].InstanceID e),
          log ++ (items.take (k + 1)).map (clearCall env)⟩ := by
  intro items
  induction items with
  | nil => intro _ _ k hk; exact absurd hk (Nat.not_lt_zero k)
  | cons x xs ih =>
    intro outputs log k hk e hpre hfail
    cases k with
    | zero =>
      simp only [List.take_zero, List.map_nil, List.append_nil, List.getElem_cons_zero] at hfail
      unfold terminateDoLoop
      rw [terminateRedis_error env log x e hfail]
      simp
    | succ k =>
      obtain ⟨r, h0⟩ := hpre 0 (Nat.succ_pos _) (Nat.succ_pos _)
      simp only [List.take_zero, List.map_nil, List.append_nil, List.getElem_cons_zero] at h0
      have hk' : k < xs.length := Nat.lt_of_succ_lt_succ hk
      have hpre' : ∀ j (_ : j < k) (h : j < xs.length), ∃ r,
          env.ClearInstance
            ((log ++ [clearCall env x]) ++ (xs.take j).map (clearCall env))
            (resolveClient env xs[j]) (clearRequest xs[j]) = .ok r := by
        intro j hj hjl
        obtain ⟨r, hr⟩ := hpre (j + 1) (Nat.succ_lt_succ hj) (Nat.succ_lt_succ hjl)
        exact ⟨r, by simpa [List.append_assoc] using hr⟩
      have hfail' :
          env.ClearInstance
            ((log ++ [clearCall env x]) ++ (xs.take k).map (clearCall env))
            (resolveClient env xs[k]) (clearRequest xs[k]) = .error e := by
        simpa [List.append_assoc] using hfail
      unfold terminateDoLoop
      rw [terminateRedis_ok env log x r h0]
      simp only
      rw [ih _ (log ++ [clearCall env x]) k hk' e hpre' hfail']
      simp [List.append_assoc]

/-- The text of the error `terminateRedis` formats holds the resource identifier and
the text of the collaborator's error. -/
theorem clearFailure_msg_contains (instanceID : String) (e : GoError) :
    instanceID.data <:+: (clearFailure instanceID e).msg.data ∧
    e.msg.data <:+: (clearFailure instanceID e).msg.data := by
  constructor
  · refine ⟨"Failed to ClearInstance(InstanceId=".data, ("), error=" ++ e.msg).data, ?_⟩
    simp [clearFailure, String.data_append]
  · refine ⟨("Failed to ClearInstance(InstanceId=" ++ instanceID ++ "), error=").data, [], ?_⟩
    simp [clearFailure, String.data_append]

/-- C9: when some `ClearInstance` call of the run fails, `RedisTerminateAction.Do`
returns a nil output and an error built from the first failing item: its text is
`Failed to ClearInstance(InstanceId=<InstanceID>), error=<text of the call's error>`,
so it holds both that item's `InstanceID` and the text of the collaborator's error; the
calls made are those of the items up to and including that item, and no later one. -/
theorem C9_terminate_Do_error_names_instance (env : Collaborators) (batch : RedisInputs)
    (hfail : ∃ i, ∃ h : i < batch.Inputs.length, ∃ e,
      env.ClearInstance ((batch.Inputs.take i).map (clearCall env))
        (resolveClient env batch.Inputs[i]) (clearRequest batch.Inputs[i]) = .error e) :
    ∃ k, ∃ h : k < batch.Inputs.length, ∃ e,
      (∀ j (_ : j < k) (h : j < batch.Inputs.length), ∃ r,
        env.ClearInstance ((batch.Inputs.take j).map (clearCall env))
          (resolveClient env batch.Inputs[j]) (clearRequest batch.Inputs[j]) = .ok r) ∧
      env.ClearInstance ((batch.Inputs.take k).map (clearCall env))
        (resolveClient env batch.Inputs[k]) (clearRequest batch.Inputs[k]) = .error e ∧
      (RedisTerminateAction.Do env (Value.redisInputs batch)).output = none ∧
      (RedisTerminateAction.Do env (Value.redisInputs batch)).err =
        some (clearFailure batch.Inputs[k].InstanceID e) ∧
      (clearFailure batch.Inputs[k].InstanceID e).msg =
        "Failed to ClearInstance(InstanceId=" ++ batch.Inputs[k].InstanceID ++ "), error="
          ++ e.msg ∧
      batch.Inputs[k].InstanceID.data <:+: (clearFailure batch.Inputs[k].InstanceID e).msg.data ∧
      e.msg.data <:+: (clearFailure batch.Inputs[k].InstanceID e).msg.data ∧
      (RedisTerminateAction.Do env (Value.redisInputs batch)).calls =
        (batch.Inputs.take (k + 1)).map (clearCall env) := by
  classical
  obtain ⟨hk, e, hke⟩ := Nat.find_spec hfail
  have hpre : ∀ j (_ : j < Nat.find hfail) (h : j < batch.Inputs.length), ∃ r,
      env.ClearInstance ((batch.Inputs.take j).map (clearCall env))
        (resolveClient env batch.Inputs[j]) (clearRequest batch.Inputs[j]) = .ok r := by
    intro j hj hjl
    have hmin := Nat.find_min hfail hj
    cases hc : env.ClearInstance ((batch.Inputs.take j).map (clearCall env))
        (resolveClient env batch.Inputs[j]) (clearRequest batch.Inputs[j]) with
    | ok r => exact ⟨r, rfl⟩
    | error e0 => exact absurd ⟨hjl, e0, hc⟩ hmin
  have hrun := terminateDoLoop_error env batch.Inputs ⟨[]⟩ [] (Nat.find hfail) hk e
    (by simpa using hpre) (by simpa using hke)
  have hdo : RedisTerminateAction.Do env (Value.redisInputs batch) =
      ⟨none, some (clearFailure batch.Inputs[Nat.find hfail].InstanceID e),
        (batch.Inputs.take (Nat.find hfail + 1)).map (clearCall env)⟩ := by
    simpa [RedisTerminateAction.Do, Value.assertRedisInputs] using hrun
  have hmsg := clearFailure_msg_contains batch.Inputs[Nat.find hfail].InstanceID e
  exact ⟨Nat.find hfail, hk, e, hpre, hke, by rw [hdo], by rw [hdo], rfl, hmsg.1, hmsg.2,
    by rw [hdo]⟩

/-- C9 on a three-item batch whose second call fails: no output, an error naming
`crs-2` and quoting the call's error, and two calls made. -/
theorem C9_terminate_Do_second_of_three_fails :
    (RedisTerminateAction.Do secondFailsEnv (Value.redisInputs threeTerminateItems)).output
      = none ∧
    (RedisTerminateAction.Do secondFailsEnv (Value.redisInputs threeTerminateItems)).err =
      some ⟨"Failed to ClearInstance(InstanceId=crs-2), error=instance is isolated"⟩ ∧
    (RedisTerminateAction.Do secondFailsEnv
      (Value.redisInputs threeTerminateItems)).calls.length = 2 := by
  obtain ⟨_, _, _, _, _, hout, _, _⟩ :=
    C9_terminate_Do_error_names_instance secondFailsEnv threeTerminateItems
      ⟨1, by decide, ⟨"instance is isolated"⟩, rfl⟩
  exact ⟨hout, by decide, rfl⟩

/-! ## Errors of credential resolution -/

/-- C8: on the one-item batch holding `badParamsItem`, `GetMapFromProviderParams`
returns an error, and yet `Do` of the create action and `Do` of the terminate action
both return a one-result output and a nil error: the error of the parse is dropped. -/
theorem C8_parse_error_dropped :
    (stubEnv.GetMapFromProviderParams badParamsItem.ProviderParams).2 =
      some ⟨"GetMapFromProviderParams meet illegal format param="⟩ ∧
    (RedisCreateAction.Do stubEnv (Value.redisInputs ⟨[badParamsItem]⟩)).output =
      some ⟨[⟨"req-1", "g1", "", 0⟩]⟩ ∧
    (RedisCreateAction.Do stubEnv (Value.redisInputs ⟨[badParamsItem]⟩)).err = none ∧
    (RedisTerminateAction.Do stubEnv (Value.redisInputs ⟨[badParamsItem]⟩)).output =
      some ⟨[⟨"req-2", "g1", "", 7⟩]⟩ ∧
    (RedisTerminateAction.Do stubEnv (Value.redisInputs ⟨[badParamsItem]⟩)).err = none := by
  refine ⟨by decide, by decide, by decide, by decide, by decide⟩

/-! ## Inputs of another dynamic type -/

/-- C10: on every input whose dynamic type is not `RedisInputs`, `CheckParam` of either
action returns its type-mismatch error, while `Do` of either action makes no call and
returns an empty output batch with a nil error, exactly as on the empty batch. -/
theorem C10_Do_without_type_check (env : Collaborators) (input : Value)
    (h : ∀ batch, input ≠ Value.redisInputs batch) :
    RedisCreateAction.CheckParam input =
      some ⟨"RedisCreateAction:input type=" ++ input.typeName ++ " not right"⟩ ∧
    RedisTerminateAction.CheckParam input =
      some ⟨"redisTerminateAtion:input type=" ++ input.typeName ++ " not right"⟩ ∧
    RedisCreateAction.Do env input = ⟨some ⟨[]⟩, none, []⟩ ∧
    RedisTerminateAction.Do env input = ⟨some ⟨[]⟩, none, []⟩ ∧
    RedisCreateAction.Do env input = RedisCreateAction.Do env (Value.redisInputs ⟨[]⟩) ∧
    RedisTerminateAction.Do env input =
      RedisTerminateAction.Do env (Value.redisInputs ⟨[]⟩) := by
  cases input with
  | redisInputs batch => exact absurd rfl (h batch)
  | nil => exact ⟨rfl, rfl, rfl, rfl, rfl, rfl⟩
  | ptrRedisInputs v => exact ⟨rfl, rfl, rfl, rfl, rfl, rfl⟩
  | ptrRedisOutputs v => exact ⟨rfl, rfl, rfl, rfl, rfl, rfl⟩
  | other goType => exact ⟨rfl, rfl, rfl, rfl, rfl, rfl⟩

/-- C10 on a `*RedisInputs` holding three well-formed items: `CheckParam` rejects it
and `Do` returns an empty output batch without making a call. -/
theorem C10_Do_on_pointer_input :
    RedisCreateAction.CheckParam (Value.ptrRedisInputs (some threeCreateItems)) =
      some ⟨"RedisCreateAction:input type=*plugins.RedisInputs not right"⟩ ∧
    RedisCreateAction.Do stubEnv (Value.ptrRedisInputs (some threeCreateItems)) =
      ⟨some ⟨[]⟩, none, []⟩ ∧
    RedisTerminateAction.Do stubEnv (Value.ptrRedisInputs (some threeCreateItems)) =
      ⟨some ⟨[]⟩, none, []⟩ := by
  have h := C10_Do_without_type_check stubEnv (Value.ptrRedisInputs (some threeCreateItems))
    (fun batch hb => by cases hb)
  exact ⟨by rw [h.1]; decide, h.2.2.1, h.2.2.2.1⟩

end Plugins
